import Mathlib

/-!
Shallow embedding of the two scripts of the A2AProject repository
(`src/a2a.py` and `src/travel.py`).

Both scripts define thin "agent" wrappers around external HTTP providers
(Google Maps geocoding, Google Places, wttr.in weather) and an orchestrator
that sequences them.  The external providers are modelled as oracles
(fields of `GmapsApi` / `WttrApi` giving the provider's response to a
request), Python exceptions as `Except` errors, Python `None` as
`Option.none`, and Python dictionaries whose keys may be absent as
structures with `Option` fields.  Every network request an agent performs
is additionally recorded as an `ApiCall`, so that theorems can speak about
which calls a run issues and with which arguments.
-/

namespace A2AProject

/-- JSON numeric values (latitudes/longitudes) as they appear in provider
responses.  The scripts never do arithmetic on them — they are only copied
and interpolated into strings — so an integer model suffices for equality
reasoning. -/
abbrev JNum := Int

/-- The duck-typed Python `location` dictionary with `lat`/`lng` keys
(`geocode_result[0]['geometry']['location']`).  A key may be absent, hence
the `Option` fields; subscripting an absent key raises `KeyError` in
Python. -/
structure LocDict where
  lat : Option JNum
  lng : Option JNum
deriving Repr, DecidableEq

/-- One entry of the list returned by `gmaps.geocode(address)`.  The code
only reads `entry['geometry']['location']`; the two nested dict lookups are
collapsed into the single `location` field. -/
structure GeoEntry where
  location : LocDict
deriving Repr, DecidableEq

/-- One record of `places_result['results']`.  The code reads the keys
`name`, `vicinity` and `formatted_address` with `dict.get`, which yields
`None` (here `Option.none`) when the key is absent. -/
structure PlaceRecord where
  name : Option String
  vicinity : Option String
  formatted_address : Option String
deriving Repr, DecidableEq

/-- One element of the list built by `find_nearby_places`
(`{"name": ..., "address": ...}`). -/
structure PlaceEntry where
  name : Option String
  address : Option String
deriving Repr, DecidableEq

/-- The Python exceptions the scripts can raise past a function boundary:
`ValueError` from agent `__init__`, `KeyError` from subscripting a dict
that lacks the key. -/
inductive PyErr where
  | valueError
  | keyError
deriving Repr, DecidableEq

/-- The first element of the weather payload's `current_condition` array.
`weatherDesc` models `cc['weatherDesc']` as the list of the `value` strings
of its elements (only `[0]['value']` is ever read; a missing `weatherDesc`
or `value` key raises inside the `try` and is caught like every other
malformed-payload case).  The remaining four fields are the raw provider
values as the strings Python's f-string interpolation produces. -/
structure WttrCondition where
  weatherDesc : Option (List String)
  temp_C : Option String
  FeelsLikeC : Option String
  humidity : Option String
  windspeedKmph : Option String
deriving Repr, DecidableEq

/-- The parsed wttr.in JSON document: the `current_condition` key may be
absent (malformed payload), otherwise it holds an array. -/
structure WttrPayload where
  current_condition : Option (List WttrCondition)
deriving Repr, DecidableEq

/-- An HTTP response as `requests` presents it: a status code, and a
`.json()` parse that may itself fail (`Except.error`). -/
structure HttpResponse where
  status : Nat
  json : Except Unit WttrPayload
deriving Repr

/-- The dictionary `get_weather` builds from a well-formed payload. -/
structure WeatherReport where
  description : String
  temperature : String
  feels_like : String
  humidity : String
  wind_speed : String
deriving Repr, DecidableEq

/-- Oracle for the Google Maps client: the provider's response to a geocode
query, and to a places search keyed by location, category string and
radius.  `Except.error` models the client call raising an exception
(network or provider failure). -/
structure GmapsApi where
  geocode : String → Except Unit (List GeoEntry)
  places : LocDict → String → Nat → Except Unit (Option (List PlaceRecord))

/-- Oracle for the wttr.in endpoint: the response to a request for the
given latitude/longitude, where `Except.error` is a network failure of
`requests.get` itself. -/
structure WttrApi where
  fetch : JNum → JNum → Except Unit HttpResponse

/-- One outbound network request performed during a run, with the
arguments it was issued with. -/
inductive ApiCall where
  | geocode (query : String)
  | places (location : LocDict) (category : String) (radius : Nat)
  | weather (location : LocDict)
deriving Repr, DecidableEq

/-- The location argument a call was issued with (`none` for geocoding,
which takes a query string instead). -/
def ApiCall.locOf : ApiCall → Option LocDict
  | .geocode _ => none
  | .places l _ _ => some l
  | .weather l => some l

/-- Agent `__init__` shared by `LocationAgent`, `AmenitiesAgent` and
`AttractionsAgent`: `api_key = os.getenv("GOOGLE_MAPS_API_KEY", "key")`
(so a missing variable falls back to the literal `"key"`), then
`raise ValueError` when the key equals the script's placeholder literal or
is empty.  On success the constructed client's key is returned. -/
def agentInit (env : Option String) (placeholder : String) : Except PyErr String :=
  let key := env.getD "key"
  if key = placeholder ∨ key = "" then Except.error PyErr.valueError
  else Except.ok key

/-- `a2a.py` agent construction: placeholder literal `"YOUR_API_KEY_HERE"`
(lines 16–19 and 61–64). -/
def a2aAgentInit (env : Option String) : Except PyErr String :=
  agentInit env "YOUR_API_KEY_HERE"

/-- `travel.py` agent construction: placeholder literal
`"YOUR_GOOGLE_MAPS_API_KEY_HERE"` (lines 16–19 and 59–62). -/
def travelAgentInit (env : Option String) : Except PyErr String :=
  agentInit env "YOUR_GOOGLE_MAPS_API_KEY_HERE"

/-- `LocationAgent.get_coordinates` (identical in both scripts): geocode
the address; an empty result list or an exception from the provider yields
`None`.  The success path prints `location['lat']`, `location['lng']`
inside the `try`, so a first result whose location dict lacks either key
raises `KeyError` there, which the `except` clause converts to `None` as
well.  The second component records the one network call made. -/
def get_coordinates (api : GmapsApi) (address : String) :
    Option LocDict × List ApiCall :=
  (match api.geocode address with
   | Except.error _ => none
   | Except.ok [] => none
   | Except.ok (e :: _) =>
     match e.location.lat, e.location.lng with
     | some _, some _ => some e.location
     | _, _ => none,
   [ApiCall.geocode address])

/-- The per-record mapping of `find_nearby_places`:
`{"name": place.get('name'),
  "address": place.get('vicinity', place.get('formatted_address'))}`. -/
def recToEntry (p : PlaceRecord) : PlaceEntry :=
  { name := p.name
    address := match p.vicinity with
               | some v => some v
               | none => p.formatted_address }

/-- `AmenitiesAgent.find_nearby_places` / `AttractionsAgent.find_nearby_places`
(textually identical in the two scripts): query the places provider; a
raised exception, a falsy response dict, a missing or empty `results` list
all yield `[]`; otherwise each record is mapped by `recToEntry` in order.
The orchestrators call it with the default radius `5000`.  The second
component records the one network call made. -/
def find_nearby_places (api : GmapsApi) (location : LocDict)
    (place_type : String) (radius : Nat) : List PlaceEntry × List ApiCall :=
  (match api.places location place_type radius with
   | Except.error _ => []
   | Except.ok none => []
   | Except.ok (some rs) => if rs.isEmpty then [] else rs.map recToEntry,
   [ApiCall.places location place_type radius])

/-- `response.raise_for_status()`: raises for 4xx and 5xx status codes. -/
def raiseForStatus (status : Nat) : Bool :=
  decide (400 ≤ status) && decide (status < 600)

/-- The `try` block of `WeatherAgent.get_weather` after the request: any
network failure, bad status, JSON parse failure, missing
`current_condition` key, empty `current_condition` array, or missing field
of its first element raises inside the `try` and is caught, yielding
`None`; a well-formed payload yields the five-field report with the units
appended exactly as the f-strings do. -/
def tryWeatherBody (fetch : Except Unit HttpResponse) : Option WeatherReport :=
  match fetch with
  | Except.error _ => none
  | Except.ok resp =>
    if raiseForStatus resp.status then none
    else
      match resp.json with
      | Except.error _ => none
      | Except.ok payload =>
        match payload.current_condition with
        | none => none
        | some [] => none
        | some (cc :: _) =>
          match cc.weatherDesc with
          | none => none
          | some [] => none
          | some (d :: _) =>
            match cc.temp_C, cc.FeelsLikeC, cc.humidity, cc.windspeedKmph with
            | some t, some fl, some h, some w =>
              some { description := d
                     temperature := t ++ " °C"
                     feels_like := fl ++ " °C"
                     humidity := h ++ "%"
                     wind_speed := w ++ " km/h" }
            | _, _, _, _ => none

/-- `WeatherAgent.get_weather` (`travel.py` lines 117–148).  The opening
`print` subscripts `location['lat']` and `location['lng']` BEFORE the
`try` block, so a location dict lacking either key raises `KeyError` out
of the function — no network call is made in that case.  With both keys
present the body never raises and returns `Option`, recording the one
wttr.in request. -/
def get_weather (api : WttrApi) (location : LocDict) :
    Except PyErr (Option WeatherReport × List ApiCall) :=
  match location.lat, location.lng with
  | some la, some ln =>
    Except.ok (tryWeatherBody (api.fetch la ln), [ApiCall.weather location])
  | _, _ => Except.error PyErr.keyError

/-- The report `analyze_property` renders: the three place lists. -/
structure PropReport where
  schools : List PlaceEntry
  parks : List PlaceEntry
  groceries : List PlaceEntry
deriving Repr, DecidableEq

/-- The report `plan_trip` renders: optional weather plus two place
lists. -/
structure TripReport where
  weather : Option WeatherReport
  attractions : List PlaceEntry
  restaurants : List PlaceEntry
deriving Repr, DecidableEq

/-- `analyze_property` (`a2a.py` lines 112–148).  Both agents run the same
constructor check against the same environment, so one check decides the
`try`; a `ValueError` there is caught and the function returns with no
network call made.  Then geocode; on `None` return with no report.
Otherwise issue the three fixed category searches and assemble the
report.  Returns the report (`none` on abort) and the ordered list of
network calls performed. -/
def analyze_property (env : Option String) (api : GmapsApi)
    (address : String) : Option PropReport × List ApiCall :=
  match a2aAgentInit env with
  | Except.error _ => (none, [])
  | Except.ok _ =>
    let gc := get_coordinates api address
    match gc.1 with
    | none => (none, gc.2)
    | some coordinates =>
      let s := find_nearby_places api coordinates "school" 5000
      let p := find_nearby_places api coordinates "park" 5000
      let g := find_nearby_places api coordinates "grocery store" 5000
      (some { schools := s.1, parks := p.1, groceries := g.1 },
       gc.2 ++ s.2 ++ p.2 ++ g.2)

/-- `plan_trip` (`travel.py` lines 153–192).  Same structure as
`analyze_property`; after obtaining coordinates it calls `get_weather`
(whose `KeyError`, were it possible, would propagate uncaught — hence the
outer `Except`) and then the two fixed category searches. -/
def plan_trip (env : Option String) (api : GmapsApi) (wapi : WttrApi)
    (city : String) : Except PyErr (Option TripReport × List ApiCall) :=
  match travelAgentInit env with
  | Except.error _ => Except.ok (none, [])
  | Except.ok _ =>
    let gc := get_coordinates api city
    match gc.1 with
    | none => Except.ok (none, gc.2)
    | some coordinates =>
      match get_weather wapi coordinates with
      | Except.error e => Except.error e
      | Except.ok wd =>
        let a := find_nearby_places api coordinates "tourist_attraction" 5000
        let r := find_nearby_places api coordinates "restaurant" 5000
        Except.ok
          (some { weather := wd.1, attractions := a.1, restaurants := r.1 },
           gc.2 ++ wd.2 ++ a.2 ++ r.2)

/-- The default address of `a2a.py`'s `__main__`. -/
def defaultAddress : String := "1600 Amphitheatre Parkway, Mountain View, CA"

/-- `a2a.py` `__main__` (lines 156–157): the address passed to
`analyze_property` — the default when the raw input line is empty (Python
falsiness of the empty string), the line itself otherwise, unmodified. -/
def a2aMainAddress (line : String) : String :=
  if line = "" then defaultAddress else line

/-- Python `str.strip()` with no argument: remove leading and trailing
whitespace characters. -/
def strip (s : String) : String :=
  ⟨((s.data.dropWhile Char.isWhitespace).reverse.dropWhile Char.isWhitespace).reverse⟩

/-- `travel.py` `__main__` (lines 197–198): the city passed to `plan_trip`
is the raw input line with surrounding whitespace stripped
(`input(...).strip()`); no default is substituted. -/
def travelMainCity (line : String) : String :=
  strip line

/-! ### Concrete provider stubs (used by witness theorems) -/

/-- A concrete geocoded location dict with both keys present. -/
def stubLoc : LocDict := { lat := some 37, lng := some (-122) }

/-- A place record carrying the short-form `vicinity` address. -/
def stubRecordShort : PlaceRecord :=
  { name := some "Alpha School"
    vicinity := some "12 Oak St"
    formatted_address := some "12 Oak St, Mountain View, CA" }

/-- A place record without `vicinity`, only the long-form address. -/
def stubRecordLong : PlaceRecord :=
  { name := some "Beta Park"
    vicinity := none
    formatted_address := some "3 Elm Ave, Mountain View, CA" }

/-- A Google Maps stub that resolves every geocode query to `stubLoc` and
every places search to two records. -/
def stubGmaps : GmapsApi :=
  { geocode := fun _ => Except.ok [{ location := stubLoc }]
    places := fun _ _ _ => Except.ok (some [stubRecordShort, stubRecordLong]) }

/-- A Google Maps stub whose geocoding returns zero results. -/
def stubGmapsNoGeo : GmapsApi :=
  { geocode := fun _ => Except.ok []
    places := fun _ _ _ => Except.ok (some [stubRecordShort]) }

/-- A Google Maps stub whose places search raises. -/
def stubGmapsFailPlaces : GmapsApi :=
  { geocode := fun _ => Except.ok [{ location := stubLoc }]
    places := fun _ _ _ => Except.error () }

/-- A Google Maps stub whose places search returns an empty result list. -/
def stubGmapsEmptyPlaces : GmapsApi :=
  { geocode := fun _ => Except.ok [{ location := stubLoc }]
    places := fun _ _ _ => Except.ok (some []) }

/-- A well-formed `current_condition` element. -/
def stubCondition : WttrCondition :=
  { weatherDesc := some ["Sunny"]
    temp_C := some "21"
    FeelsLikeC := some "19"
    humidity := some "40"
    windspeedKmph := some "11" }

/-- A weather stub returning a well-formed 200 payload. -/
def stubWttrGood : WttrApi :=
  { fetch := fun _ _ => Except.ok
      { status := 200, json := Except.ok { current_condition := some [stubCondition] } } }

/-- A weather stub whose payload lacks the `current_condition` key. -/
def stubWttrMalformed : WttrApi :=
  { fetch := fun _ _ => Except.ok
      { status := 200, json := Except.ok { current_condition := none } } }

/-- A weather stub whose request raises a network error. -/
def stubWttrNetFail : WttrApi :=
  { fetch := fun _ _ => Except.error () }

/-- A weather stub answering with a 503 status. -/
def stubWttrBadStatus : WttrApi :=
  { fetch := fun _ _ => Except.ok
      { status := 503, json := Except.error () } }

/-! ### Helper lemmas -/

/-- Constructor check for an environment variable that is set: it raises
exactly when the value equals the placeholder or is empty. -/
theorem agentInit_some_error_iff (s ph : String) :
    agentInit (some s) ph = Except.error PyErr.valueError ↔ s = ph ∨ s = "" := by
  unfold agentInit
  simp only [Option.getD]
  split
  · next hc => simp [hc]
  · next hc => simp [hc]

/-- Constructor check for a missing environment variable: the fallback
literal `"key"` is used and (for any placeholder other than `"key"`
itself) construction succeeds. -/
theorem agentInit_none (ph : String) (h1 : ph ≠ "key") :
    agentInit none ph = Except.ok "key" := by
  have h2 : ¬(("key" : String) = ph ∨ ("key" : String) = "") := by
    rintro (h | h)
    · exact h1 h.symm
    · exact absurd h (by decide)
  show (if ("key" : String) = ph ∨ ("key" : String) = "" then Except.error PyErr.valueError
        else Except.ok "key") = Except.ok "key"
  rw [if_neg h2]

/-- A location dict returned by `get_coordinates` always carries both
keys: the success path of the source subscripts `location['lat']` and
`location['lng']` inside its `try`, so a dict lacking either key can never
be returned. -/
theorem get_coordinates_keys (api : GmapsApi) (q : String) (coords : LocDict)
    (h : (get_coordinates api q).1 = some coords) :
    ∃ la ln, coords.lat = some la ∧ coords.lng = some ln := by
  unfold get_coordinates at h
  cases hg : api.geocode q with
  | error e => simp [hg] at h
  | ok res =>
    cases res with
    | nil => simp [hg] at h
    | cons e rest =>
      simp only [hg] at h
      cases hla : e.location.lat with
      | none => simp [hla] at h
      | some la =>
        cases hln : e.location.lng with
        | none => simp [hla, hln] at h
        | some ln =>
          simp only [hla, hln, Option.some.injEq] at h
          exact ⟨la, ln, by rw [← h]; exact hla, by rw [← h]; exact hln⟩

/-- The pair returned by `get_coordinates` in terms of its first
component: the trace is always the single geocode call. -/
theorem get_coordinates_eta (api : GmapsApi) (q : String) :
    get_coordinates api q = ((get_coordinates api q).1, [ApiCall.geocode q]) :=
  Prod.ext rfl rfl

/-- Trace of `analyze_property` when construction succeeds and a
coordinate is obtained: the geocode call followed by the three fixed
category searches at that coordinate. -/
theorem analyze_property_trace_ok (env : Option String) (g : GmapsApi)
    (q : String) (coords : LocDict) (k : String)
    (hi : a2aAgentInit env = Except.ok k)
    (hc : (get_coordinates g q).1 = some coords) :
    analyze_property env g q =
      (some { schools := (find_nearby_places g coords "school" 5000).1
              parks := (find_nearby_places g coords "park" 5000).1
              groceries := (find_nearby_places g coords "grocery store" 5000).1 },
       [ApiCall.geocode q, ApiCall.places coords "school" 5000,
        ApiCall.places coords "park" 5000,
        ApiCall.places coords "grocery store" 5000]) := by
  have hgc : get_coordinates g q = (some coords, [ApiCall.geocode q]) := by
    rw [get_coordinates_eta, hc]
  unfold analyze_property
  rw [hi, hgc]
  rfl

/-- Outcome of `plan_trip` when construction succeeds and a coordinate is
obtained: the weather body result plus the two fixed category searches,
with the trace in call order. -/
theorem plan_trip_ok (env : Option String) (g : GmapsApi) (w : WttrApi)
    (q : String) (coords : LocDict) (k : String) (la ln : JNum)
    (hi : travelAgentInit env = Except.ok k)
    (hc : (get_coordinates g q).1 = some coords)
    (hla : coords.lat = some la) (hln : coords.lng = some ln) :
    plan_trip env g w q =
      Except.ok
        (some { weather := tryWeatherBody (w.fetch la ln)
                attractions := (find_nearby_places g coords "tourist_attraction" 5000).1
                restaurants := (find_nearby_places g coords "restaurant" 5000).1 },
         [ApiCall.geocode q, ApiCall.weather coords,
          ApiCall.places coords "tourist_attraction" 5000,
          ApiCall.places coords "restaurant" 5000]) := by
  have hgc : get_coordinates g q = (some coords, [ApiCall.geocode q]) := by
    rw [get_coordinates_eta, hc]
  have hgw : get_weather w coords =
      Except.ok (tryWeatherBody (w.fetch la ln), [ApiCall.weather coords]) := by
    unfold get_weather
    rw [hla, hln]
  unfold plan_trip
  rw [hi]
  simp only [hgc, hgw]
  rfl

/-! ### Claims -/

/-- C1 (counterexample): with the credential environment variable missing,
agent construction in both scripts does NOT raise — `os.getenv` falls back
to the literal `"key"`, which is neither the placeholder nor empty, so the
constructor succeeds and a client is built with that key. -/
theorem claim_C1_counterexample :
    a2aAgentInit none = Except.ok "key" ∧ travelAgentInit none = Except.ok "key" := by
  exact ⟨agentInit_none _ (by decide), agentInit_none _ (by decide)⟩

/-- C1 (amended): agent construction raises `ValueError` exactly when the
environment variable is SET to the script's placeholder literal
(`"YOUR_API_KEY_HERE"` in a2a.py, `"YOUR_GOOGLE_MAPS_API_KEY_HERE"` in
travel.py) or to the empty string; a missing variable falls back to the
literal `"key"` and construction succeeds.  When construction does raise,
the orchestrator catches the error and returns before any network call is
made (the call trace is empty and no report is produced). -/
theorem claim_C1_amended_thm (env : Option String) (api : GmapsApi)
    (wapi : WttrApi) (address city : String) :
    (a2aAgentInit env = Except.error PyErr.valueError ↔
      env = some "YOUR_API_KEY_HERE" ∨ env = some "") ∧
    (travelAgentInit env = Except.error PyErr.valueError ↔
      env = some "YOUR_GOOGLE_MAPS_API_KEY_HERE" ∨ env = some "") ∧
    (a2aAgentInit env = Except.error PyErr.valueError →
      analyze_property env api address = (none, [])) ∧
    (travelAgentInit env = Except.error PyErr.valueError →
      plan_trip env api wapi city = Except.ok (none, [])) := by
  refine ⟨?_, ?_, ?_, ?_⟩
  · cases env with
    | none => simp [agentInit_none "YOUR_API_KEY_HERE" (by decide), a2aAgentInit]
    | some s => simpa using agentInit_some_error_iff s "YOUR_API_KEY_HERE"
  · cases env with
    | none =>
      simp [agentInit_none "YOUR_GOOGLE_MAPS_API_KEY_HERE" (by decide), travelAgentInit]
    | some s => simpa using agentInit_some_error_iff s "YOUR_GOOGLE_MAPS_API_KEY_HERE"
  · intro h
    simp [analyze_property, h]
  · intro h
    simp [plan_trip, h]

/-- C1 (witness): an environment variable set to the empty string makes
both orchestrators abort with an empty call trace. -/
theorem claim_C1_amended_witness :
    analyze_property (some "") stubGmaps "x" = (none, []) ∧
    plan_trip (some "") stubGmaps stubWttrGood "Paris" = Except.ok (none, []) :=
  ⟨(claim_C1_amended_thm (some "") stubGmaps stubWttrGood "x" "Paris").2.2.1
     ((agentInit_some_error_iff "" "YOUR_API_KEY_HERE").mpr (Or.inr rfl)),
   (claim_C1_amended_thm (some "") stubGmaps stubWttrGood "x" "Paris").2.2.2
     ((agentInit_some_error_iff "" "YOUR_GOOGLE_MAPS_API_KEY_HERE").mpr (Or.inr rfl))⟩

/-- C3 (counterexample): in travel.py an empty input line is NOT replaced
by a default location — the stripped empty string is passed to `plan_trip`
unchanged (in particular it is not a2a.py's default address, nor any
non-empty default). -/
theorem claim_C3_counterexample :
    travelMainCity "" = "" ∧ travelMainCity "" ≠ defaultAddress := by
  constructor
  · decide
  · decide

/-- C3 (amended): only a2a.py substitutes a default — an empty input line
becomes `"1600 Amphitheatre Parkway, Mountain View, CA"` and a non-empty
line is used exactly.  travel.py strips surrounding whitespace from the
line and passes the result through, even when it is empty: no default is
substituted. -/
theorem claim_C3_amended_thm (s : String) (hs : s ≠ "") (t : String) :
    a2aMainAddress "" = defaultAddress ∧ a2aMainAddress s = s ∧
    travelMainCity t = strip t ∧ travelMainCity "" = "" := by
  refine ⟨rfl, ?_, rfl, by decide⟩
  unfold a2aMainAddress
  simp [hs]

/-- C3 (witness): the amended behavior at the concrete line `"Paris"`. -/
theorem claim_C3_amended_witness :
    ("Paris" : String) ≠ "" ∧
    (a2aMainAddress "" = defaultAddress ∧ a2aMainAddress "Paris" = "Paris" ∧
     travelMainCity " Paris " = strip " Paris " ∧ travelMainCity "" = "") :=
  ⟨by decide, claim_C3_amended_thm "Paris" (by decide) " Paris "⟩

/-- C6: for a non-empty query the provider resolves, `get_coordinates`
returns exactly the location dict of the provider's first result; for a
provider returning zero results it returns `None`. -/
theorem claim_C6 (api : GmapsApi) (q : String) (_hq : q ≠ "") :
    (∀ e rest la ln, api.geocode q = Except.ok (e :: rest) →
      e.location.lat = some la → e.location.lng = some ln →
      (get_coordinates api q).1 = some e.location) ∧
    (api.geocode q = Except.ok [] → (get_coordinates api q).1 = none) := by
  constructor
  · intro e rest la ln hg hla hln
    simp [get_coordinates, hg, hla, hln]
  · intro hg
    simp [get_coordinates, hg]

/-- C6 (witness): the stub resolving `"Paris"` to `stubLoc` makes
`get_coordinates` return exactly `stubLoc`, and the zero-result stub makes
it return `None`. -/
theorem claim_C6_witness :
    (("Paris" : String) ≠ "" ∧ (get_coordinates stubGmaps "Paris").1 = some stubLoc) ∧
    (("Paris" : String) ≠ "" ∧ (get_coordinates stubGmapsNoGeo "Paris").1 = none) :=
  ⟨⟨by decide,
    (claim_C6 stubGmaps "Paris" (by decide)).1 { location := stubLoc } [] 37 (-122)
      rfl rfl rfl⟩,
   ⟨by decide, (claim_C6 stubGmapsNoGeo "Paris" (by decide)).2 rfl⟩⟩

/-- C7: a raised provider exception and an empty provider result both make
`find_nearby_places` return the empty list, so the two outcomes are
indistinguishable to the caller; the function is total in the embedding
because the source catches every exception of its body. -/
theorem claim_C7 (api1 api2 : GmapsApi) (loc : LocDict) (cat : String)
    (radius : Nat) (e : Unit)
    (hfail : api1.places loc cat radius = Except.error e)
    (hempty : api2.places loc cat radius = Except.ok (some [])) :
    (find_nearby_places api1 loc cat radius).1 = [] ∧
    (find_nearby_places api2 loc cat radius).1 = [] ∧
    (find_nearby_places api1 loc cat radius).1 =
      (find_nearby_places api2 loc cat radius).1 := by
  refine ⟨?_, ?_, ?_⟩ <;> simp [find_nearby_places, hfail, hempty]

/-- C7 (witness): the failing stub and the empty stub at a concrete
location and category. -/
theorem claim_C7_witness :
    (find_nearby_places stubGmapsFailPlaces stubLoc "school" 5000).1 = [] ∧
    (find_nearby_places stubGmapsEmptyPlaces stubLoc "school" 5000).1 = [] ∧
    (find_nearby_places stubGmapsFailPlaces stubLoc "school" 5000).1 =
      (find_nearby_places stubGmapsEmptyPlaces stubLoc "school" 5000).1 :=
  claim_C7 stubGmapsFailPlaces stubGmapsEmptyPlaces stubLoc "school" 5000 () rfl rfl

/-- C2: when geocoding yields no coordinate (zero results, a provider
exception, or a malformed first result), both orchestrators produce no
report and never invoke any places or weather client — every call in the
run's trace is a geocode call. -/
theorem claim_C2 (env : Option String) (g : GmapsApi) (w : WttrApi)
    (q : String) (h : (get_coordinates g q).1 = none) :
    ((analyze_property env g q).1 = none ∧
      ∀ c ∈ (analyze_property env g q).2, ∃ s, c = ApiCall.geocode s) ∧
    (∃ tr, plan_trip env g w q = Except.ok (none, tr) ∧
      ∀ c ∈ tr, ∃ s, c = ApiCall.geocode s) := by
  have hgc : get_coordinates g q = (none, [ApiCall.geocode q]) := by
    rw [get_coordinates_eta, h]
  constructor
  · unfold analyze_property
    cases hA : a2aAgentInit env with
    | error e =>
      refine ⟨rfl, ?_⟩
      intro c hcmem
      exact absurd hcmem (by simp)
    | ok k =>
      simp only [hgc]
      refine ⟨by trivial, ?_⟩
      intro c hcmem
      simp only [List.mem_singleton] at hcmem
      exact ⟨q, hcmem⟩
  · unfold plan_trip
    cases hA : travelAgentInit env with
    | error e => exact ⟨[], rfl, by simp⟩
    | ok k =>
      refine ⟨[ApiCall.geocode q], ?_, ?_⟩
      · simp only [hgc]
      · intro c hcmem
        simp only [List.mem_singleton] at hcmem
        exact ⟨q, hcmem⟩

/-- C2 (witness): a zero-result geocoding stub — no report and a trace
containing only the geocode call, for both orchestrators. -/
theorem claim_C2_witness :
    (get_coordinates stubGmapsNoGeo "Nowhere").1 = none ∧
    (((analyze_property none stubGmapsNoGeo "Nowhere").1 = none ∧
       ∀ c ∈ (analyze_property none stubGmapsNoGeo "Nowhere").2,
         ∃ s, c = ApiCall.geocode s) ∧
     (∃ tr, plan_trip none stubGmapsNoGeo stubWttrGood "Nowhere" =
         Except.ok (none, tr) ∧ ∀ c ∈ tr, ∃ s, c = ApiCall.geocode s)) :=
  ⟨rfl, claim_C2 none stubGmapsNoGeo stubWttrGood "Nowhere" rfl⟩

/-- C4: with a location dict carrying both keys, `get_weather` returns a
`WeatherSummary` with all five fields populated (units appended as the
source's f-strings do) for a well-formed payload, and returns `None`
without raising for a payload missing `current_condition`, for a network
failure of the request, and for a non-2xx status. -/
theorem claim_C4 (api : WttrApi) (loc : LocDict) (la ln : JNum)
    (hla : loc.lat = some la) (hln : loc.lng = some ln) :
    (∀ resp payload cc rest d ds t fl hu ws,
      api.fetch la ln = Except.ok resp →
      raiseForStatus resp.status = false →
      resp.json = Except.ok payload →
      payload.current_condition = some (cc :: rest) →
      cc.weatherDesc = some (d :: ds) →
      cc.temp_C = some t → cc.FeelsLikeC = some fl →
      cc.humidity = some hu → cc.windspeedKmph = some ws →
      get_weather api loc = Except.ok
        (some { description := d
                temperature := t ++ " °C"
                feels_like := fl ++ " °C"
                humidity := hu ++ "%"
                wind_speed := ws ++ " km/h" },
         [ApiCall.weather loc])) ∧
    (∀ resp payload,
      api.fetch la ln = Except.ok resp →
      resp.json = Except.ok payload →
      payload.current_condition = none →
      get_weather api loc = Except.ok (none, [ApiCall.weather loc])) ∧
    (∀ e : Unit, api.fetch la ln = Except.error e →
      get_weather api loc = Except.ok (none, [ApiCall.weather loc])) ∧
    (∀ resp, api.fetch la ln = Except.ok resp →
      raiseForStatus resp.status = true →
      get_weather api loc = Except.ok (none, [ApiCall.weather loc])) := by
  have hgw : ∀ b, tryWeatherBody (api.fetch la ln) = b →
      get_weather api loc = Except.ok (b, [ApiCall.weather loc]) := by
    intro b hb
    unfold get_weather
    rw [hla, hln, ← hb]
  refine ⟨?_, ?_, ?_, ?_⟩
  · intro resp payload cc rest d ds t fl hu ws hf hst hj hcc hd ht hfl hhu hws
    refine hgw _ ?_
    unfold tryWeatherBody
    rw [hf]
    simp [hst, hj, hcc, hd, ht, hfl, hhu, hws]
  · intro resp payload hf hj hcc
    refine hgw _ ?_
    unfold tryWeatherBody
    rw [hf]
    cases hst : raiseForStatus resp.status with
    | true => simp [hst]
    | false => simp [hst, hj, hcc]
  · intro e hf
    refine hgw _ ?_
    unfold tryWeatherBody
    rw [hf]
  · intro resp hf hst
    refine hgw _ ?_
    unfold tryWeatherBody
    rw [hf]
    simp [hst]

/-- C4 (witness): the four weather stubs at the concrete coordinate
`stubLoc` — a fully populated summary for the well-formed stub, `None` for
the malformed, network-failing and bad-status stubs. -/
theorem claim_C4_witness :
    get_weather stubWttrGood stubLoc = Except.ok
      (some { description := "Sunny", temperature := "21 °C",
              feels_like := "19 °C", humidity := "40%",
              wind_speed := "11 km/h" },
       [ApiCall.weather stubLoc]) ∧
    get_weather stubWttrMalformed stubLoc =
      Except.ok (none, [ApiCall.weather stubLoc]) ∧
    get_weather stubWttrNetFail stubLoc =
      Except.ok (none, [ApiCall.weather stubLoc]) ∧
    get_weather stubWttrBadStatus stubLoc =
      Except.ok (none, [ApiCall.weather stubLoc]) :=
  ⟨(claim_C4 stubWttrGood stubLoc 37 (-122) rfl rfl).1
      { status := 200, json := Except.ok { current_condition := some [stubCondition] } }
      { current_condition := some [stubCondition] }
      stubCondition [] "Sunny" [] "21" "19" "40" "11"
      rfl rfl rfl rfl rfl rfl rfl rfl rfl,
   (claim_C4 stubWttrMalformed stubLoc 37 (-122) rfl rfl).2.1
      { status := 200, json := Except.ok { current_condition := none } }
      { current_condition := none } rfl rfl rfl,
   (claim_C4 stubWttrNetFail stubLoc 37 (-122) rfl rfl).2.2.1 () rfl,
   (claim_C4 stubWttrBadStatus stubLoc 37 (-122) rfl rfl).2.2.2
      { status := 503, json := Except.error () } rfl rfl⟩

/-- C5: a places response of N records yields exactly N entries in the
same order; each entry's name is the record's `name`, its address the
record's `vicinity`, with `formatted_address` only when `vicinity` is
absent. -/
theorem claim_C5 (api : GmapsApi) (loc : LocDict) (cat : String)
    (radius : Nat) (rs : List PlaceRecord)
    (h : api.places loc cat radius = Except.ok (some rs)) :
    (find_nearby_places api loc cat radius).1.length = rs.length ∧
    ∀ i : Nat, ((find_nearby_places api loc cat radius).1)[i]? =
      (rs[i]?).map (fun p =>
        { name := p.name
          address := match p.vicinity with
                     | some v => some v
                     | none => p.formatted_address }) := by
  have h1 : (find_nearby_places api loc cat radius).1 = rs.map recToEntry := by
    unfold find_nearby_places
    simp only [h]
    cases rs with
    | nil => rfl
    | cons a l => rfl
  rw [h1]
  constructor
  · exact List.length_map rs recToEntry
  · intro i
    rw [List.getElem?_map]
    cases rs[i]? with
    | none => rfl
    | some p => rfl

/-- C5 (witness): the two-record stub (one record with `vicinity`, one
without) yields two entries, the first using the short-form address and
the second falling back to the long-form one. -/
theorem claim_C5_witness :
    (find_nearby_places stubGmaps stubLoc "school" 5000).1.length = 2 ∧
    ((find_nearby_places stubGmaps stubLoc "school" 5000).1)[0]? =
      some { name := some "Alpha School", address := some "12 Oak St" } ∧
    ((find_nearby_places stubGmaps stubLoc "school" 5000).1)[1]? =
      some { name := some "Beta Park",
             address := some "3 Elm Ave, Mountain View, CA" } := by
  have hc := claim_C5 stubGmaps stubLoc "school" 5000
    [stubRecordShort, stubRecordLong] rfl
  exact ⟨hc.1, by rw [hc.2 0]; rfl, by rw [hc.2 1]; rfl⟩

/-- C8: once a coordinate is obtained (and construction succeeded), the
property-analysis orchestrator issues exactly the geocode call followed by
three places queries with the fixed categories `"school"`, `"park"`,
`"grocery store"`, and the trip-planning orchestrator issues exactly the
geocode call, one weather lookup, and two places queries with the fixed
categories `"tourist_attraction"`, `"restaurant"` — all at radius 5000. -/
theorem claim_C8 (env : Option String) (g : GmapsApi) (w : WttrApi)
    (q : String) (coords : LocDict) (k k2 : String)
    (hi : a2aAgentInit env = Except.ok k)
    (hi2 : travelAgentInit env = Except.ok k2)
    (hc : (get_coordinates g q).1 = some coords) :
    (analyze_property env g q).2 =
      [ApiCall.geocode q, ApiCall.places coords "school" 5000,
       ApiCall.places coords "park" 5000,
       ApiCall.places coords "grocery store" 5000] ∧
    ∃ rep : TripReport, plan_trip env g w q =
      Except.ok (some rep,
        [ApiCall.geocode q, ApiCall.weather coords,
         ApiCall.places coords "tourist_attraction" 5000,
         ApiCall.places coords "restaurant" 5000]) := by
  obtain ⟨la, ln, hla, hln⟩ := get_coordinates_keys g q coords hc
  constructor
  · rw [analyze_property_trace_ok env g q coords k hi hc]
  · exact ⟨_, plan_trip_ok env g w q coords k2 la ln hi2 hc hla hln⟩

/-- C8 (witness): the resolving stub at query `"Paris"` issues exactly the
advertised calls in both orchestrators (environment variable missing, so
construction succeeds with the fallback key). -/
theorem claim_C8_witness :
    a2aAgentInit none = Except.ok "key" ∧
    (get_coordinates stubGmaps "Paris").1 = some stubLoc ∧
    ((analyze_property none stubGmaps "Paris").2 =
      [ApiCall.geocode "Paris", ApiCall.places stubLoc "school" 5000,
       ApiCall.places stubLoc "park" 5000,
       ApiCall.places stubLoc "grocery store" 5000] ∧
     ∃ rep : TripReport, plan_trip none stubGmaps stubWttrGood "Paris" =
       Except.ok (some rep,
         [ApiCall.geocode "Paris", ApiCall.weather stubLoc,
          ApiCall.places stubLoc "tourist_attraction" 5000,
          ApiCall.places stubLoc "restaurant" 5000])) :=
  ⟨agentInit_none _ (by decide), rfl,
   claim_C8 none stubGmaps stubWttrGood "Paris" stubLoc "key" "key"
     (agentInit_none _ (by decide)) (agentInit_none _ (by decide)) rfl⟩

/-- C9: the coordinate obtained from geocoding is never mutated — the
embedding is pure because the source only reads the `location` dict — and
every downstream call of either orchestrator is issued with exactly that
coordinate value: each call in the trace either carries no location
(geocoding) or carries the geocoded coordinate unchanged. -/
theorem claim_C9 (env : Option String) (g : GmapsApi) (w : WttrApi)
    (q : String) (coords : LocDict)
    (hc : (get_coordinates g q).1 = some coords) :
    (∀ c ∈ (analyze_property env g q).2,
      c.locOf = none ∨ c.locOf = some coords) ∧
    (∀ rep tr, plan_trip env g w q = Except.ok (rep, tr) →
      ∀ c ∈ tr, c.locOf = none ∨ c.locOf = some coords) := by
  obtain ⟨la, ln, hla, hln⟩ := get_coordinates_keys g q coords hc
  constructor
  · cases hA : a2aAgentInit env with
    | error e =>
      intro c hcmem
      simp [analyze_property, hA] at hcmem
    | ok k =>
      rw [analyze_property_trace_ok env g q coords k hA hc]
      intro c hcmem
      simp only [List.mem_cons, List.not_mem_nil, or_false] at hcmem
      rcases hcmem with h1 | h1 | h1 | h1 <;> subst h1 <;> simp [ApiCall.locOf]
  · intro rep tr htr c hcmem
    cases hA : travelAgentInit env with
    | error e =>
      rw [show plan_trip env g w q = Except.ok (none, []) from by
            unfold plan_trip; rw [hA]] at htr
      simp only [Except.ok.injEq, Prod.mk.injEq] at htr
      rw [← htr.2] at hcmem
      simp at hcmem
    | ok k =>
      rw [plan_trip_ok env g w q coords k la ln hA hc hla hln] at htr
      simp only [Except.ok.injEq, Prod.mk.injEq] at htr
      rw [← htr.2] at hcmem
      simp only [List.mem_cons, List.not_mem_nil, or_false] at hcmem
      rcases hcmem with h1 | h1 | h1 | h1 <;> subst h1 <;> simp [ApiCall.locOf]

/-- C9 (witness): with the resolving stub, every traced call of both
orchestrators carries either no location or exactly `stubLoc`. -/
theorem claim_C9_witness :
    (get_coordinates stubGmaps "Paris").1 = some stubLoc ∧
    ((∀ c ∈ (analyze_property none stubGmaps "Paris").2,
       c.locOf = none ∨ c.locOf = some stubLoc) ∧
     (∀ rep tr, plan_trip none stubGmaps stubWttrGood "Paris" =
         Except.ok (rep, tr) →
       ∀ c ∈ tr, c.locOf = none ∨ c.locOf = some stubLoc)) :=
  ⟨rfl, claim_C9 none stubGmaps stubWttrGood "Paris" stubLoc rfl⟩

/-- C10: `get_weather` subscripts `location['lat']` and `location['lng']`
in its opening `print`, before the `try` block, so a location dict lacking
either key raises `KeyError` (no call is made and `None` is not returned);
with both keys present the function never raises and returns an
`Option`al summary. -/
theorem claim_C10 :
    (∀ (api : WttrApi) (ln : Option JNum),
      get_weather api { lat := none, lng := ln } =
        Except.error PyErr.keyError) ∧
    (∀ (api : WttrApi) (la : Option JNum),
      get_weather api { lat := la, lng := none } =
        Except.error PyErr.keyError) ∧
    (∀ (api : WttrApi) (loc : LocDict) (la ln : JNum),
      loc.lat = some la → loc.lng = some ln →
      get_weather api loc =
        Except.ok (tryWeatherBody (api.fetch la ln), [ApiCall.weather loc])) := by
  refine ⟨?_, ?_, ?_⟩
  · intro api ln
    cases ln <;> rfl
  · intro api la
    cases la <;> rfl
  · intro api loc la ln hla hln
    unfold get_weather
    rw [hla, hln]

/-- C10 (witness): a dict lacking `lat` raises `KeyError` against the
well-formed stub; the full `stubLoc` dict yields a normal `Option`
result. -/
theorem claim_C10_witness :
    get_weather stubWttrGood { lat := none, lng := some (-122) } =
      Except.error PyErr.keyError ∧
    get_weather stubWttrGood stubLoc =
      Except.ok (tryWeatherBody (stubWttrGood.fetch 37 (-122)),
        [ApiCall.weather stubLoc]) :=
  ⟨claim_C10.1 stubWttrGood (some (-122)),
   claim_C10.2.2 stubWttrGood stubLoc 37 (-122) rfl rfl⟩

end A2AProject
